import Mathlib

/-!
Verification development for the DeepGuardX backend pipeline
(session store, scan gate, summarizer, conversation, coordinator).

The TypeScript sources are shallowly embedded as pure Lean functions:

* The filesystem is an explicit `FS` value (an association list of file
  paths to parsed contents, plus a list of directories).  Files hold the
  JSON value that `JSON.parse` would produce for them, so reading a file
  returns its structured content directly.
* Stateful service methods become functions `FS → … → FS × Except AppError α`:
  the returned `FS` is the filesystem after the call (unchanged on the
  error paths, exactly as in the source, where every `fs.writeFileSync`
  is explicit in the success path).
* The external collaborators (the Python scanner subprocess and the two
  remote AI endpoints) are modelled by outcome parameters: the embedded
  function receives the outcome the collaborator produced and maps it the
  way the source code maps the corresponding callback / axios result.
* Paths are modelled as strings already resolved against the working
  directory; `path.join` is plain segment concatenation with `/` (no
  normalisation), and `path.basename` takes the last `/`-separated
  segment.
-/

set_option autoImplicit false

/-- Citation entry `{source, page}` attached to an assistant turn
(`cyber.service.ts`, `ChatMessage.sources`). -/
structure Source where
  source : String
  page : Int
deriving DecidableEq

/-- One conversation turn (`cyber.service.ts`, `type ChatMessage`).
The `sources` key is absent (`none`) on user turns and present on
assistant turns, mirroring the two `messages.push` calls. -/
structure ChatMessage where
  role : String
  content : String
  sources : Option (List Source)
deriving DecidableEq

/-- Parsed scanner report JSON.  The scanner collaborator contract requires
an integer `risk_level` field; the rest of the report is a free-form
findings payload. -/
structure ScanReport where
  risk_level : Int
  payload : String
deriving DecidableEq

/-- Parsed content of a file on disk: the JSON value `JSON.parse` yields
(for `chat.json` and `*.report.json`) or the raw text (for `summary.txt`
and uploaded documents). -/
inductive FileContent where
  | text (s : String)
  | chat (msgs : List ChatMessage)
  | report (r : ScanReport)
deriving DecidableEq

/-- Domain error carrying a message and an HTTP status code
(`Utils/AppError.ts`). -/
structure AppError where
  message : String
  statusCode : Nat
deriving DecidableEq

/-- Filesystem state: files (path to parsed content, newest entry first)
and directories. -/
structure FS where
  files : List (String × FileContent)
  dirs : List String
deriving DecidableEq

/-- Lookup of the newest entry for a path in the file list. -/
def findFile : List (String × FileContent) → String → Option FileContent
  | [], _ => none
  | (q, c) :: rest, p => if p = q then some c else findFile rest p

/-- Remove every entry for a path from the file list. -/
def removeFileList : List (String × FileContent) → String → List (String × FileContent)
  | [], _ => []
  | (q, c) :: rest, p =>
      if q = p then removeFileList rest p else (q, c) :: removeFileList rest p

/-- Membership test on the directory list. -/
def memb : String → List String → Bool
  | _, [] => false
  | p, q :: rest => if p = q then true else memb p rest

/-- Content of the file at `p`, if any. -/
def FS.fileAt (fs : FS) (p : String) : Option FileContent :=
  findFile fs.files p

/-- True iff a directory exists at `p`. -/
def FS.hasDir (fs : FS) (p : String) : Bool :=
  memb p fs.dirs

/-- Embedding of `fs.existsSync`: true iff a file or a directory exists
at `p`. -/
def FS.existsAt (fs : FS) (p : String) : Bool :=
  (fs.fileAt p).isSome || fs.hasDir p

/-- Embedding of `fs.mkdirSync(p, {recursive:true})`. -/
def FS.mkdir (fs : FS) (p : String) : FS :=
  ⟨fs.files, p :: fs.dirs⟩

/-- Embedding of `fs.writeFileSync(p, c)` (creates or overwrites). -/
def FS.writeFile (fs : FS) (p : String) (c : FileContent) : FS :=
  ⟨(p, c) :: fs.files, fs.dirs⟩

/-- Remove the file at `p`. -/
def FS.removeFile (fs : FS) (p : String) : FS :=
  ⟨removeFileList fs.files p, fs.dirs⟩

/-- Embedding of `fs.renameSync(src, dst)`.  The source only calls it
under an existence check on `src`, so the missing-source branch (which
would throw `ENOENT`) is never reached in the embedded services. -/
def FS.rename (fs : FS) (src dst : String) : FS :=
  match fs.fileAt src with
  | some c => (fs.removeFile src).writeFile dst c
  | none => fs

/-- Embedding of Node `path.join` on two segments (no normalisation:
segments are kept verbatim, which keeps traversal segments visible). -/
def Path.join (a b : String) : String := a ++ "/" ++ b

/-- Characters of the last `/`-separated segment of a character list,
accumulating the current segment and restarting it after each `/`. -/
def lastSegment : List Char → List Char → List Char
  | [], acc => acc
  | c :: rest, acc =>
      if c = '/' then lastSegment rest [] else lastSegment rest (acc ++ [c])

/-- Embedding of Node `path.basename`: the last `/`-separated segment
(the paths the services build never end in a separator). -/
def Path.basename (p : String) : String := ⟨lastSegment p.data []⟩

/-- The session storage root `path.join("uploads", sessionId)`, as built
inline in `cyber.service.ts` (scan, summarize, askQuestion) and in the
Multer destination callback. -/
def sessionFolderOf (sid : String) : String := Path.join "uploads" sid

/-- The `if (!fs.existsSync(sessionFolder)) fs.mkdirSync(...)` pattern
inlined in `scan`, `summarize` and the Multer destination callback. -/
def ensureSessionFolder (fs : FS) (sid : String) : FS :=
  if fs.existsAt (sessionFolderOf sid) then fs else fs.mkdir (sessionFolderOf sid)

/-- The report artifact path `pdfFullPath + ".report.json"` derived from
the input file path (`cyber.service.ts` line 32). -/
def reportFileOf (fp : String) : String := fp ++ ".report.json"

/-- The relocation target `path.join(sessionFolder, path.basename(reportFile))`
(`cyber.service.ts` lines 39-42). -/
def reportDestOf (sid fp : String) : String :=
  Path.join (sessionFolderOf sid) (Path.basename (reportFileOf fp))

/-- The summary artifact path `path.join(sessionFolder, "summary.txt")`. -/
def summaryPathOf (sid : String) : String :=
  Path.join (sessionFolderOf sid) "summary.txt"

/-- The conversation log path `path.join(sessionFolder, "chat.json")`. -/
def chatFileOf (sid : String) : String :=
  Path.join (sessionFolderOf sid) "chat.json"

/-- Loading the conversation log (`cyber.service.ts` lines 188-192):
empty when the file is absent, and `Array.isArray(raw) ? raw : []`
degrades non-array content to the empty log. -/
def readChat (fs : FS) (chatFile : String) : List ChatMessage :=
  match fs.fileAt chatFile with
  | some (.chat msgs) => msgs
  | some _ => []
  | none => []

/-- The persisted conversation log of a session. -/
def chatLog (fs : FS) (sid : String) : List ChatMessage :=
  readChat fs (chatFileOf sid)

theorem fileAt_writeFile_self (fs : FS) (p : String) (c : FileContent) :
    (fs.writeFile p c).fileAt p = some c := by
  simp [FS.writeFile, FS.fileAt, findFile]

theorem fileAt_writeFile_ne (fs : FS) (p q : String) (c : FileContent)
    (h : q ≠ p) : (fs.writeFile p c).fileAt q = fs.fileAt q := by
  simp [FS.writeFile, FS.fileAt, findFile, h]

theorem fileAt_mkdir (fs : FS) (d p : String) :
    (fs.mkdir d).fileAt p = fs.fileAt p := rfl

theorem files_mkdir (fs : FS) (d : String) :
    (fs.mkdir d).files = fs.files := rfl

theorem hasDir_writeFile (fs : FS) (p d : String) (c : FileContent) :
    (fs.writeFile p c).hasDir d = fs.hasDir d := rfl

theorem hasDir_mkdir_self (fs : FS) (d : String) :
    (fs.mkdir d).hasDir d = true := by
  simp [FS.mkdir, FS.hasDir, memb]

theorem findFile_removeFileList_ne (l : List (String × FileContent))
    (p q : String) (h : q ≠ p) :
    findFile (removeFileList l p) q = findFile l q := by
  induction l with
  | nil => rfl
  | cons e rest ih =>
      obtain ⟨k, c⟩ := e
      by_cases hk : k = p
      · subst hk
        simp [removeFileList, findFile, ih, fun hq : q = k => h hq]
      · by_cases hq : q = k
        · subst hq
          simp [removeFileList, findFile, hk]
        · simp [removeFileList, findFile, hk, hq, ih]

theorem findFile_removeFileList_self (l : List (String × FileContent))
    (p : String) : findFile (removeFileList l p) p = none := by
  induction l with
  | nil => rfl
  | cons e rest ih =>
      obtain ⟨k, c⟩ := e
      by_cases hk : k = p
      · subst hk; simp [removeFileList, ih]
      · have hk2 : ¬p = k := fun hq => hk hq.symm
        simp [removeFileList, findFile, hk, hk2, ih]

theorem fileAt_removeFile_ne (fs : FS) (p q : String) (h : q ≠ p) :
    (fs.removeFile p).fileAt q = fs.fileAt q :=
  findFile_removeFileList_ne fs.files p q h

theorem fileAt_removeFile_self (fs : FS) (p : String) :
    (fs.removeFile p).fileAt p = none :=
  findFile_removeFileList_self fs.files p

theorem rename_of_found (fs : FS) (src dst : String) (c : FileContent)
    (h : fs.fileAt src = some c) :
    fs.rename src dst = (fs.removeFile src).writeFile dst c := by
  simp [FS.rename, h]

theorem hasDir_rename (fs : FS) (src dst d : String) :
    (fs.rename src dst).hasDir d = fs.hasDir d := by
  unfold FS.rename
  cases fs.fileAt src <;> rfl

theorem fileAt_ensureSessionFolder (fs : FS) (sid : String) (p : String) :
    (ensureSessionFolder fs sid).fileAt p = fs.fileAt p := by
  unfold ensureSessionFolder
  split <;> rfl

theorem files_ensureSessionFolder (fs : FS) (sid : String) :
    (ensureSessionFolder fs sid).files = fs.files := by
  unfold ensureSessionFolder
  split <;> rfl

theorem existsAt_ensureSessionFolder (fs : FS) (sid : String) :
    (ensureSessionFolder fs sid).existsAt (sessionFolderOf sid) = true := by
  unfold ensureSessionFolder
  split
  · assumption
  · simp [FS.existsAt, FS.mkdir, FS.hasDir, memb, FS.fileAt]

theorem hasDir_ensureSessionFolder_of_absent (fs : FS) (sid : String)
    (h : fs.existsAt (sessionFolderOf sid) = false) :
    (ensureSessionFolder fs sid).hasDir (sessionFolderOf sid) = true := by
  unfold ensureSessionFolder
  rw [if_neg (by simp [h])]
  exact hasDir_mkdir_self fs (sessionFolderOf sid)

theorem existsAt_writeFile_of (fs : FS) (p q : String) (c : FileContent)
    (h : fs.existsAt p = true) : (fs.writeFile q c).existsAt p = true := by
  by_cases hpq : p = q
  · subst hpq
    simp [FS.existsAt, fileAt_writeFile_self]
  · simp only [FS.existsAt, fileAt_writeFile_ne fs q p c hpq, hasDir_writeFile]
    exact h

/-- Outcome of the `execFile` call on the Python scanner
(`cyber.service.ts` lines 21-51): either the callback receives an error
(the process could not be launched or exited non-zero) or it completes
with exit code zero. -/
inductive ScanProcessOutcome where
  | execError (msg : String)
  | exitZero
deriving DecidableEq

/-- The two ways `CyberService.scan` rejects: the propagated `execFile`
error, or `new Error("Report JSON not generated")`. -/
inductive ScanError where
  | processFailure (msg : String)
  | reportMissing
deriving DecidableEq

/-- The `message` of the rejection value, as rendered by the global error
handler in `app.controller.ts`. -/
def ScanError.message : ScanError → String
  | .processFailure m => m
  | .reportMissing => "Report JSON not generated"

/-- Embedding of `CyberService.scan` (`cyber.service.ts` lines 8-53).
The session folder is ensured, the scanner process is run, and on a zero
exit the report artifact derived from the input file path is parsed and
relocated (renamed) into the session folder. -/
def CyberService.scan (fs : FS) (sessionId filePath : String)
    (proc : ScanProcessOutcome) : FS × Except ScanError FileContent :=
  let fs1 := ensureSessionFolder fs sessionId
  match proc with
  | .execError msg => (fs1, .error (.processFailure msg))
  | .exitZero =>
      match fs1.fileAt (reportFileOf filePath) with
      | some c =>
          (fs1.rename (reportFileOf filePath) (reportDestOf sessionId filePath), .ok c)
      | none => (fs1, .error .reportMissing)

/-- Outcome of the axios POST to `/api/summarize`
(`cyber.service.ts` lines 119-134): success carries `response.data.summary`;
the failure constructors match the branches of the catch block
(`ECONNABORTED`, a structured `error.response`, `ECONNREFUSED`, and any
other transport error). -/
inductive SummarizeRemoteOutcome where
  | ok (summary : String)
  | timeout
  | errResponse (detail : Option String) (status : Nat)
  | connRefused
  | netError (msg : String)
deriving DecidableEq

/-- True on every constructor except `ok`. -/
def SummarizeRemoteOutcome.isFailure : SummarizeRemoteOutcome → Bool
  | .ok _ => false
  | _ => true

/-- Embedding of `AiService.summarize` (`cyber.service.ts` lines 94-167):
argument presence checks, file existence and regular-file checks, session
folder creation, then the remote call; on success the returned summary
text is written to `summary.txt` under the session folder and returned,
and each failure is mapped to an `AppError` exactly as in the catch
block. -/
def AiService.summarize (fs : FS) (sessionId filePath : String)
    (remote : SummarizeRemoteOutcome) : FS × Except AppError String :=
  if sessionId = "" ∨ filePath = "" then
    (fs, .error ⟨"Missing Session Id or filePath", 400⟩)
  else if fs.existsAt filePath = false then
    (fs, .error ⟨"File not found: " ++ filePath, 404⟩)
  else if fs.hasDir filePath then
    (fs, .error ⟨"Expected a file but got a directory", 400⟩)
  else
    let fs1 := ensureSessionFolder fs sessionId
    match remote with
    | .ok summary =>
        (fs1.writeFile (summaryPathOf sessionId) (.text summary), .ok summary)
    | .timeout =>
        (fs1, .error ⟨"AI service took too long to respond. Please try a smaller file.", 504⟩)
    | .errResponse detail status =>
        (fs1, .error ⟨detail.getD "AI service error", status⟩)
    | .connRefused =>
        (fs1, .error ⟨"AI service unavailable. Make sure Python server is running on port 8000.", 503⟩)
    | .netError msg =>
        (fs1, .error ⟨"AI service error: " ++ msg, 503⟩)

/-- Outcome of the axios POST to `/api/ask`
(`cyber.service.ts` lines 201-214): the collaborator responds either a
plain string or a JSON object `{answer, sources}` (`sources` optional);
failures are a structured `error.response` or any other transport
error. -/
inductive AskRemoteOutcome where
  | okString (s : String)
  | okJson (answer : String) (sources : Option (List Source))
  | errResponse (detail : Option String) (status : Nat)
  | errNetwork
deriving DecidableEq

/-- True on the two success constructors. -/
def AskRemoteOutcome.isSuccess : AskRemoteOutcome → Bool
  | .okString _ => true
  | .okJson _ _ => true
  | _ => false

/-- The extracted answer, embedding
`typeof aiData === "string" ? aiData : aiData.answer`
(`cyber.service.ts` line 218). -/
def AskRemoteOutcome.answerOf : AskRemoteOutcome → String
  | .okString s => s
  | .okJson a _ => a
  | _ => ""

/-- The extracted citation list, embedding `aiData?.sources ?? []`
(`cyber.service.ts` line 219). -/
def AskRemoteOutcome.sourcesOf : AskRemoteOutcome → List Source
  | .okString _ => []
  | .okJson _ srcs => srcs.getD []
  | _ => []

/-- Embedding of `AiService.askQuestion` (`cyber.service.ts` lines
172-240): argument presence checks, session folder existence check, load
of the existing log, in-memory append of the user turn, the remote call,
then (only on success) the in-memory append of the assistant turn
followed by the single `writeFileSync` that persists the whole log. -/
def AiService.askQuestion (fs : FS) (sessionId question : String)
    (remote : AskRemoteOutcome) : FS × Except AppError (List ChatMessage) :=
  if sessionId = "" ∨ question = "" then
    (fs, .error ⟨"Missing sessionId or question", 400⟩)
  else if fs.existsAt (sessionFolderOf sessionId) = false then
    (fs, .error ⟨"Session Folder Not Found", 404⟩)
  else
    let messages := readChat fs (chatFileOf sessionId) ++ [⟨"user", question, none⟩]
    match remote with
    | .errResponse detail status => (fs, .error ⟨detail.getD "AI service error", status⟩)
    | .errNetwork => (fs, .error ⟨"AI service unavailable", 503⟩)
    | o =>
        let messages2 := messages ++ [⟨"assistant", o.answerOf, some o.sourcesOf⟩]
        (fs.writeFile (chatFileOf sessionId) (.chat messages2), .ok messages2)

/-- Embedding of the JS loose comparison `report.risk_level == 3` in
`upload.service.ts` line 28: `report` is the parsed report JSON; when the
JSON is not an object with an integer `risk_level`, the property access
yields `undefined`, which is not loosely equal to `3`. -/
def riskLevelEq3 : FileContent → Bool
  | .report r => r.risk_level == 3
  | _ => false

/-- HTTP response produced by the intake flow (`upload.service.ts` upload
handler plus the global error handler): the 400 rejection body
`{message, report}`, the 200 success body
`{status, sessionId, report, summarization}`, or the uniform JSON error
envelope. -/
inductive UploadResponse where
  | rejected (message : String) (report : FileContent)
  | success (status sessionId : String) (report : FileContent) (summarization : String)
  | errorEnvelope (message : String) (statusCode : Nat)
deriving DecidableEq

/-- Embedding of `UploadService.upload` (`upload.service.ts` lines
13-47): presence checks on the session id and uploaded file, the scan,
the binary risk policy on `risk_level == 3`, then summarization; thrown
errors reach the global error handler, which renders
`{message, statusCode}` (a plain `Error` from scan has no `statusCode`
and falls back to 500). -/
def UploadService.upload (fs : FS) (sessionId : String) (file : Option String)
    (proc : ScanProcessOutcome) (sumRemote : SummarizeRemoteOutcome) :
    FS × UploadResponse :=
  match file with
  | none => (fs, .errorEnvelope "Upload failed: missing sessionId or file" 400)
  | some filePath =>
    if sessionId = "" ∨ filePath = "" then
      (fs, .errorEnvelope "Upload failed: missing sessionId or file" 400)
    else
      match CyberService.scan fs sessionId filePath proc with
      | (fs1, .error e) => (fs1, .errorEnvelope e.message 500)
      | (fs1, .ok report) =>
        if riskLevelEq3 report then
          (fs1, .rejected "Rejected file" report)
        else
          match AiService.summarize fs1 sessionId filePath sumRemote with
          | (fs2, .error err) => (fs2, .errorEnvelope err.message err.statusCode)
          | (fs2, .ok summary) => (fs2, .success "success" sessionId report summary)

/-- Incoming intake request as seen before the middleware chain: whatever
session identifier the caller may have supplied, and the uploaded file
(original name and content), if any. -/
structure IntakeRequest where
  callerSessionId : Option String
  file : Option (String × String)
deriving DecidableEq

/-- Embedding of the Multer disk storage callbacks (`middleware/Multer.ts`
lines 296-313): ensure `uploads/<req.sessionId>` exists, then write the
uploaded bytes to `path.join(fullPath, originalname)`. -/
def multerStore (fs : FS) (sessionId nm content : String) : FS :=
  (ensureSessionFolder fs sessionId).writeFile
    (Path.join (sessionFolderOf sessionId) nm) (.text content)

/-- Embedding of the intake route
`uploadRouter.post("/", generateSessionId(), MulterLocal(...).single("file"), US.upload)`
(`upload.controller.ts` line 8).  The `generateSessionId()` middleware
(`middleware/SessionId.ts`) unconditionally sets `req.sessionId` to a
fresh `uuid4()` value — the `freshUuid` parameter here — and never reads
any caller-supplied identifier, so `req.callerSessionId` is not consulted
anywhere in the chain.  Multer then throws `"Session ID not set"` (500)
if `req.sessionId` is falsy, stores the file, and `UploadService.upload`
runs on the stored path. -/
def intake (fs : FS) (req : IntakeRequest) (freshUuid : String)
    (proc : ScanProcessOutcome) (sumRemote : SummarizeRemoteOutcome) :
    FS × UploadResponse :=
  match req.file with
  | none => UploadService.upload fs freshUuid none proc sumRemote
  | some (nm, content) =>
      if freshUuid = "" then (fs, .errorEnvelope "Session ID not set" 500)
      else
        UploadService.upload (multerStore fs freshUuid nm content) freshUuid
          (some (Path.join (sessionFolderOf freshUuid) nm)) proc sumRemote

/-- Folding a sequence of `ask` calls (question and remote outcome pairs)
over the filesystem, keeping the state each call leaves behind. -/
def runAsks (fs : FS) (sid : String) (calls : List (String × AskRemoteOutcome)) : FS :=
  calls.foldl (fun f c => (AiService.askQuestion f sid c.1 c.2).1) fs

theorem scan_fileAt_preserved (fs : FS) (sid fp : String)
    (proc : ScanProcessOutcome) (p : String)
    (h1 : p ≠ reportFileOf fp) (h2 : p ≠ reportDestOf sid fp) :
    ((CyberService.scan fs sid fp proc).1).fileAt p = fs.fileAt p := by
  cases proc with
  | execError msg =>
      simp [CyberService.scan, fileAt_ensureSessionFolder]
  | exitZero =>
      cases h : (ensureSessionFolder fs sid).fileAt (reportFileOf fp) with
      | none =>
          simp [CyberService.scan, h, fileAt_ensureSessionFolder]
      | some c =>
          simp only [CyberService.scan, h]
          rw [rename_of_found _ _ _ c h,
            fileAt_writeFile_ne _ _ _ _ h2, fileAt_removeFile_ne _ _ _ h1,
            fileAt_ensureSessionFolder]

/-- C7: `scan` fails with the propagated process error when the scanner
process errors (covering both launch failure and non-zero exit), fails
with the report-missing error when the process exits zero but no report
artifact exists at the path derived from the input file, and otherwise
relocates the artifact into the session folder by renaming (the source
path no longer holds the file afterwards, so it is a move, not a copy)
and returns the parsed report.  Each failure is returned directly; no
branch re-runs the scanner. -/
theorem scan_failure_and_relocate (fs : FS) (sid fp : String) :
    (∀ msg, CyberService.scan fs sid fp (.execError msg)
        = (ensureSessionFolder fs sid, .error (.processFailure msg)))
  ∧ ((ensureSessionFolder fs sid).fileAt (reportFileOf fp) = none →
      CyberService.scan fs sid fp .exitZero
        = (ensureSessionFolder fs sid, .error .reportMissing))
  ∧ (∀ c, (ensureSessionFolder fs sid).fileAt (reportFileOf fp) = some c →
      (CyberService.scan fs sid fp .exitZero).2 = .ok c
      ∧ ((CyberService.scan fs sid fp .exitZero).1).fileAt (reportDestOf sid fp) = some c
      ∧ (reportFileOf fp ≠ reportDestOf sid fp →
          ((CyberService.scan fs sid fp .exitZero).1).fileAt (reportFileOf fp) = none)
      ∧ (CyberService.scan fs sid fp .exitZero).1
          = (ensureSessionFolder fs sid).rename (reportFileOf fp) (reportDestOf sid fp)) := by
  refine ⟨fun msg => rfl, fun h => by simp [CyberService.scan, h], fun c h => ?_⟩
  have hscan : CyberService.scan fs sid fp .exitZero
      = ((ensureSessionFolder fs sid).rename (reportFileOf fp) (reportDestOf sid fp),
         .ok c) := by
    simp [CyberService.scan, h]
  refine ⟨by rw [hscan], ?_, ?_, by rw [hscan]⟩
  · rw [hscan, rename_of_found _ _ _ c h]
    exact fileAt_writeFile_self _ _ _
  · intro hne
    rw [hscan, rename_of_found _ _ _ c h,
      fileAt_writeFile_ne _ _ _ _ hne, fileAt_removeFile_self]

/-- C7 witness: a concrete filesystem holding a report artifact next to
the scanned file; the scan succeeds, the artifact ends up inside the
session folder and is gone from its original location, and both failure
branches produce their respective errors. -/
theorem scan_failure_and_relocate_witness :
    (CyberService.scan ⟨[("doc.pdf.report.json", .report ⟨2, "findings"⟩)], []⟩
        "s" "doc.pdf" .exitZero).2 = .ok (.report ⟨2, "findings"⟩)
  ∧ ((CyberService.scan ⟨[("doc.pdf.report.json", .report ⟨2, "findings"⟩)], []⟩
        "s" "doc.pdf" .exitZero).1).fileAt "uploads/s/doc.pdf.report.json"
        = some (.report ⟨2, "findings"⟩)
  ∧ ((CyberService.scan ⟨[("doc.pdf.report.json", .report ⟨2, "findings"⟩)], []⟩
        "s" "doc.pdf" .exitZero).1).fileAt "doc.pdf.report.json" = none
  ∧ CyberService.scan ⟨[], []⟩ "s" "doc.pdf" (.execError "spawn failed")
      = (ensureSessionFolder ⟨[], []⟩ "s", .error (.processFailure "spawn failed"))
  ∧ CyberService.scan ⟨[], []⟩ "s" "doc.pdf" .exitZero
      = (ensureSessionFolder ⟨[], []⟩ "s", .error .reportMissing) := by
  have h := scan_failure_and_relocate
    ⟨[("doc.pdf.report.json", .report ⟨2, "findings"⟩)], []⟩ "s" "doc.pdf"
  have h3 := h.2.2 (.report ⟨2, "findings"⟩) (by decide)
  have h0 := scan_failure_and_relocate (⟨[], []⟩ : FS) "s" "doc.pdf"
  refine ⟨h3.1, ?_, ?_, h0.1 "spawn failed", h0.2.1 (by decide)⟩
  · have heq : reportDestOf "s" "doc.pdf" = "uploads/s/doc.pdf.report.json" := by decide
    have h31 := h3.2.1
    rw [heq] at h31
    exact h31
  · exact h3.2.2.1 (by decide)

/-- C2 counterexample: the claim says a session identifier is shape
validated before it is ever joined into a filesystem path and that a
traversal-shaped identifier is rejected with an invalid-session-id error.
On the code, the identifier `"../../etc"` flows straight into
`path.join("uploads", sessionId)` and `fs.mkdirSync`: after `scan` a
directory exists at the joined traversal path, and the scan was not
rejected by any validation — it proceeded to launch the scanner and
returned that process error untouched. -/
theorem scan_no_session_id_validation_counterexample :
    ((CyberService.scan ⟨[], []⟩ "../../etc" "doc.pdf" (.execError "boom")).1).hasDir
        (Path.join "uploads" "../../etc") = true
  ∧ (CyberService.scan ⟨[], []⟩ "../../etc" "doc.pdf" (.execError "boom")).2
      = .error (.processFailure "boom") := by
  exact ⟨rfl, rfl⟩

/-- C2 amended: no shape validation of the session identifier exists and
there is no invalid-session-id error anywhere in the code; every
caller-supplied identifier — of any charset, length or shape, traversal
segments included — is joined verbatim into the path
`uploads/<identifier>`, and `scan` creates a directory at that raw joined
path whenever it is absent, so the identifier reaches filesystem
operations unconditionally. -/
theorem scan_uses_raw_session_id (fs : FS) (sid fp : String)
    (proc : ScanProcessOutcome)
    (h : fs.existsAt (sessionFolderOf sid) = false) :
    ((CyberService.scan fs sid fp proc).1).hasDir (sessionFolderOf sid) = true := by
  have hens := hasDir_ensureSessionFolder_of_absent fs sid h
  cases proc with
  | execError msg => simpa [CyberService.scan] using hens
  | exitZero =>
      cases hr : (ensureSessionFolder fs sid).fileAt (reportFileOf fp) with
      | none => simpa [CyberService.scan, hr] using hens
      | some c =>
          simp only [CyberService.scan, hr]
          rw [hasDir_rename]
          exact hens

/-- C2 amended witness: a session identifier made only of traversal
segments is accepted and a directory is created at the raw joined
path. -/
theorem scan_uses_raw_session_id_witness :
    ((CyberService.scan ⟨[], []⟩ "../.." "doc.pdf" .exitZero).1).hasDir
        (sessionFolderOf "../..") = true := by
  exact scan_uses_raw_session_id ⟨[], []⟩ "../.." "doc.pdf" .exitZero (by decide)

/-- C1: the risk policy is binary on the parsed report.  When
`risk_level == 3` the flow short-circuits with the 400 body
`{message: "Rejected file", report}`, the result is the same for every
possible summarizer outcome (so the summarizer is observationally never
invoked), the filesystem is exactly the one the scan left (the
coordinator writes nothing further), and no summary artifact exists for
the session if none existed before.  When `risk_level` is below 3 the
flow proceeds to summarization and, on its success, the 200 body carries
the status, the session id, the report and the summary text (the source
labels that field `summarization`). -/
theorem upload_risk_policy (fs fs1 : FS) (sid fp : String)
    (proc : ScanProcessOutcome) (sumo : SummarizeRemoteOutcome) (rep : FileContent)
    (hsid : sid ≠ "") (hfp : fp ≠ "")
    (hscan : CyberService.scan fs sid fp proc = (fs1, .ok rep)) :
    (riskLevelEq3 rep = true →
        (∀ o2, UploadService.upload fs sid (some fp) proc o2
            = (fs1, .rejected "Rejected file" rep))
      ∧ (fs.fileAt (summaryPathOf sid) = none →
          summaryPathOf sid ≠ reportFileOf fp →
          summaryPathOf sid ≠ reportDestOf sid fp →
          fs1.fileAt (summaryPathOf sid) = none))
  ∧ (riskLevelEq3 rep = false → ∀ s, sumo = .ok s →
      fs1.existsAt fp = true → fs1.hasDir fp = false →
      (UploadService.upload fs sid (some fp) proc sumo).2
        = .success "success" sid rep s) := by
  have hneg : ¬(sid = "" ∨ fp = "") := by simp [hsid, hfp]
  constructor
  · intro hrisk
    constructor
    · intro o2
      simp only [UploadService.upload]
      rw [if_neg hneg, hscan]
      simp [hrisk]
    · intro hnone hne1 hne2
      have hpres := scan_fileAt_preserved fs sid fp proc (summaryPathOf sid) hne1 hne2
      rw [hscan] at hpres
      rw [hpres, hnone]
  · intro hrisk s hs hex hnd
    subst hs
    have hsum : AiService.summarize fs1 sid fp (.ok s)
        = ((ensureSessionFolder fs1 sid).writeFile (summaryPathOf sid) (.text s),
           .ok s) := by
      unfold AiService.summarize
      rw [if_neg hneg, if_neg (by simp [hex]), if_neg (by simp [hnd])]
    simp only [UploadService.upload]
    rw [if_neg hneg, hscan]
    simp [hrisk, hsum]

/-- C1 witness: a report with `risk_level = 3` is rejected with the exact
400 body and leaves no summary artifact, while a report with
`risk_level = 1` proceeds and yields the full 200 body. -/
theorem upload_risk_policy_witness :
    UploadService.upload
        ⟨[("doc.pdf.report.json", .report ⟨3, "bad"⟩), ("doc.pdf", .text "PDF")], []⟩
        "s" (some "doc.pdf") .exitZero (.ok "unused")
      = (⟨[("uploads/s/doc.pdf.report.json", .report ⟨3, "bad"⟩), ("doc.pdf", .text "PDF")],
          ["uploads/s"]⟩,
         .rejected "Rejected file" (.report ⟨3, "bad"⟩))
  ∧ (FS.mk [("uploads/s/doc.pdf.report.json", .report ⟨3, "bad"⟩), ("doc.pdf", .text "PDF")]
        ["uploads/s"]).fileAt (summaryPathOf "s") = none
  ∧ (UploadService.upload
        ⟨[("doc.pdf.report.json", .report ⟨1, "clean"⟩), ("doc.pdf", .text "PDF")], []⟩
        "s" (some "doc.pdf") .exitZero (.ok "short summary")).2
      = .success "success" "s" (.report ⟨1, "clean"⟩) "short summary" := by
  have hA := upload_risk_policy
    ⟨[("doc.pdf.report.json", .report ⟨3, "bad"⟩), ("doc.pdf", .text "PDF")], []⟩
    ⟨[("uploads/s/doc.pdf.report.json", .report ⟨3, "bad"⟩), ("doc.pdf", .text "PDF")],
      ["uploads/s"]⟩
    "s" "doc.pdf" .exitZero (.ok "unused") (.report ⟨3, "bad"⟩)
    (by decide) (by decide) rfl
  have hB := upload_risk_policy
    ⟨[("doc.pdf.report.json", .report ⟨1, "clean"⟩), ("doc.pdf", .text "PDF")], []⟩
    ⟨[("uploads/s/doc.pdf.report.json", .report ⟨1, "clean"⟩), ("doc.pdf", .text "PDF")],
      ["uploads/s"]⟩
    "s" "doc.pdf" .exitZero (.ok "short summary") (.report ⟨1, "clean"⟩)
    (by decide) (by decide) rfl
  refine ⟨(hA.1 (by decide)).1 (.ok "unused"),
    (hA.1 (by decide)).2 (by decide) (by decide) (by decide),
    hB.2 (by decide) "short summary" rfl (by decide) (by decide)⟩

/-- C4: whenever the summarize remote call fails — the timeout maps to
the 504 too-slow error, a refused connection maps to the 503 unavailable
error, and a structured collaborator error response is propagated with
its status and detail message — the file list of the resulting
filesystem is exactly the input one (only the session folder may have
been created, a directory-only change), so no summary artifact, partial
or otherwise, is persisted, and the uploaded file is untouched. -/
theorem summarize_failure_spec (fs : FS) (sid fp : String)
    (o : SummarizeRemoteOutcome)
    (hsid : sid ≠ "") (hfp : fp ≠ "")
    (hex : fs.existsAt fp = true) (hnd : fs.hasDir fp = false)
    (hfail : o.isFailure = true) :
    ((AiService.summarize fs sid fp o).1).files = fs.files
  ∧ ((AiService.summarize fs sid fp o).1).fileAt (summaryPathOf sid)
      = fs.fileAt (summaryPathOf sid)
  ∧ ((AiService.summarize fs sid fp o).1).fileAt fp = fs.fileAt fp
  ∧ (o = .timeout →
      (AiService.summarize fs sid fp o).2
        = .error ⟨"AI service took too long to respond. Please try a smaller file.", 504⟩)
  ∧ (o = .connRefused →
      (AiService.summarize fs sid fp o).2
        = .error ⟨"AI service unavailable. Make sure Python server is running on port 8000.", 503⟩)
  ∧ (∀ d st, o = .errResponse d st →
      (AiService.summarize fs sid fp o).2 = .error ⟨d.getD "AI service error", st⟩) := by
  have hneg : ¬(sid = "" ∨ fp = "") := by simp [hsid, hfp]
  have hstate : (AiService.summarize fs sid fp o).1 = ensureSessionFolder fs sid := by
    unfold AiService.summarize
    rw [if_neg hneg, if_neg (by simp [hex]), if_neg (by simp [hnd])]
    cases o with
    | ok s => simp [SummarizeRemoteOutcome.isFailure] at hfail
    | timeout => rfl
    | errResponse d st => rfl
    | connRefused => rfl
    | netError m => rfl
  have hfiles : ((AiService.summarize fs sid fp o).1).files = fs.files := by
    rw [hstate, files_ensureSessionFolder]
  refine ⟨hfiles, ?_, ?_, ?_, ?_, ?_⟩
  · rw [hstate, ← fileAt_ensureSessionFolder fs sid (summaryPathOf sid)]
  · rw [hstate, ← fileAt_ensureSessionFolder fs sid fp]
  · intro h
    subst h
    unfold AiService.summarize
    rw [if_neg hneg, if_neg (by simp [hex]), if_neg (by simp [hnd])]
  · intro h
    subst h
    unfold AiService.summarize
    rw [if_neg hneg, if_neg (by simp [hex]), if_neg (by simp [hnd])]
  · intro d st h
    subst h
    unfold AiService.summarize
    rw [if_neg hneg, if_neg (by simp [hex]), if_neg (by simp [hnd])]

/-- C4 witness: a concrete timeout leaves the file list unchanged and
returns the 504 mapping, and a structured 422 collaborator error is
propagated with its status and detail. -/
theorem summarize_failure_spec_witness :
    ((AiService.summarize ⟨[("doc.pdf", .text "PDF")], []⟩ "s" "doc.pdf" .timeout).1).files
      = [("doc.pdf", .text "PDF")]
  ∧ (AiService.summarize ⟨[("doc.pdf", .text "PDF")], []⟩ "s" "doc.pdf" .timeout).2
      = .error ⟨"AI service took too long to respond. Please try a smaller file.", 504⟩
  ∧ (AiService.summarize ⟨[("doc.pdf", .text "PDF")], []⟩ "s" "doc.pdf"
        (.errResponse (some "unsupported") 422)).2
      = .error ⟨"unsupported", 422⟩ := by
  have hT := summarize_failure_spec ⟨[("doc.pdf", .text "PDF")], []⟩ "s" "doc.pdf"
    .timeout (by decide) (by decide) (by decide) (by decide) (by decide)
  have hR := summarize_failure_spec ⟨[("doc.pdf", .text "PDF")], []⟩ "s" "doc.pdf"
    (.errResponse (some "unsupported") 422) (by decide) (by decide) (by decide)
    (by decide) (by decide)
  exact ⟨hT.1, hT.2.2.2.1 rfl, hR.2.2.2.2.2 (some "unsupported") 422 rfl⟩

/-- C5: `summarize` errors with the 404 not-found error when no file
exists at the path and with the 400 directory error when the path is a
directory; otherwise it ensures the session folder exists and, on a
successful collaborator response, writes exactly the returned text as the
single summary artifact `summary.txt` under the session folder and
returns that same text. -/
theorem summarize_success_spec (fs : FS) (sid fp : String)
    (o : SummarizeRemoteOutcome) (hsid : sid ≠ "") (hfp : fp ≠ "") :
    (fs.existsAt fp = false →
      AiService.summarize fs sid fp o = (fs, .error ⟨"File not found: " ++ fp, 404⟩))
  ∧ (fs.existsAt fp = true → fs.hasDir fp = true →
      AiService.summarize fs sid fp o
        = (fs, .error ⟨"Expected a file but got a directory", 400⟩))
  ∧ (∀ s, o = .ok s → fs.existsAt fp = true → fs.hasDir fp = false →
      AiService.summarize fs sid fp o
        = ((ensureSessionFolder fs sid).writeFile (summaryPathOf sid) (.text s), .ok s)
      ∧ ((AiService.summarize fs sid fp o).1).existsAt (sessionFolderOf sid) = true
      ∧ ((AiService.summarize fs sid fp o).1).fileAt (summaryPathOf sid)
          = some (.text s)) := by
  have hneg : ¬(sid = "" ∨ fp = "") := by simp [hsid, hfp]
  refine ⟨?_, ?_, ?_⟩
  · intro habs
    unfold AiService.summarize
    rw [if_neg hneg, if_pos habs]
  · intro hex hdir
    unfold AiService.summarize
    rw [if_neg hneg, if_neg (by simp [hex]), if_pos hdir]
  · intro s hs hex hnd
    subst hs
    have heq : AiService.summarize fs sid fp (.ok s)
        = ((ensureSessionFolder fs sid).writeFile (summaryPathOf sid) (.text s),
           .ok s) := by
      unfold AiService.summarize
      rw [if_neg hneg, if_neg (by simp [hex]), if_neg (by simp [hnd])]
    refine ⟨heq, ?_, ?_⟩
    · rw [heq]
      exact existsAt_writeFile_of _ _ _ _ (existsAt_ensureSessionFolder fs sid)
    · rw [heq]
      exact fileAt_writeFile_self _ _ _

/-- C5 witness: missing file, directory instead of file, and the
successful write-and-return of the summary text, at concrete inputs. -/
theorem summarize_success_spec_witness :
    AiService.summarize ⟨[], []⟩ "s" "ghost.pdf" (.ok "t")
      = (⟨[], []⟩, .error ⟨"File not found: ghost.pdf", 404⟩)
  ∧ AiService.summarize ⟨[], ["somedir"]⟩ "s" "somedir" (.ok "t")
      = (⟨[], ["somedir"]⟩, .error ⟨"Expected a file but got a directory", 400⟩)
  ∧ AiService.summarize ⟨[("doc.pdf", .text "PDF")], []⟩ "s" "doc.pdf" (.ok "the summary")
      = (⟨[("uploads/s/summary.txt", .text "the summary"), ("doc.pdf", .text "PDF")],
          ["uploads/s"]⟩, .ok "the summary")
  ∧ ((AiService.summarize ⟨[("doc.pdf", .text "PDF")], []⟩ "s" "doc.pdf"
        (.ok "the summary")).1).fileAt (summaryPathOf "s") = some (.text "the summary") := by
  have h1 := summarize_success_spec ⟨[], []⟩ "s" "ghost.pdf" (.ok "t")
    (by decide) (by decide)
  have h2 := summarize_success_spec ⟨[], ["somedir"]⟩ "s" "somedir" (.ok "t")
    (by decide) (by decide)
  have h3 := summarize_success_spec ⟨[("doc.pdf", .text "PDF")], []⟩ "s" "doc.pdf"
    (.ok "the summary") (by decide) (by decide)
  have h3s := h3.2.2 "the summary" rfl (by decide) (by decide)
  refine ⟨h1.1 (by decide), h2.2.1 (by decide) (by decide), ?_, h3s.2.2⟩
  rw [h3s.1]
  rfl


/-- C3 counterexample: the claim says the user turn is persisted to the
conversation log before the remote call is attempted, so a failed remote
call leaves the persisted log containing the unanswered user turn.  On
the code the only `writeFileSync` of the log sits after the assistant
turn is appended: with an existing session folder, an empty prior log and
an unreachable collaborator, `askQuestion` fails and the persisted log is
still empty — the user turn was never persisted. -/
theorem ask_user_turn_not_persisted_counterexample :
    AiService.askQuestion ⟨[], ["uploads/s"]⟩ "s" "hello" .errNetwork
      = (⟨[], ["uploads/s"]⟩, .error ⟨"AI service unavailable", 503⟩)
  ∧ chatLog ((AiService.askQuestion ⟨[], ["uploads/s"]⟩ "s" "hello" .errNetwork).1) "s"
      = [] := by
  exact ⟨rfl, rfl⟩

/-- C3 amended: the user turn is appended to the in-memory log before the
remote call is attempted, but the log is persisted only by the single
write that follows a successful response (after the assistant turn is
appended).  When the remote call fails, the filesystem — and hence the
persisted log — is left exactly as it was, so the unanswered user turn is
not persisted. -/
theorem ask_failure_persists_nothing (fs : FS) (sid q : String)
    (o : AskRemoteOutcome) (hfail : o.isSuccess = false) :
    (AiService.askQuestion fs sid q o).1 = fs
  ∧ chatLog ((AiService.askQuestion fs sid q o).1) sid = chatLog fs sid := by
  have h1 : (AiService.askQuestion fs sid q o).1 = fs := by
    unfold AiService.askQuestion
    split
    · rfl
    · split
      · rfl
      · cases o with
        | errResponse d st => rfl
        | errNetwork => rfl
        | okString s => simp [AskRemoteOutcome.isSuccess] at hfail
        | okJson a srcs => simp [AskRemoteOutcome.isSuccess] at hfail
  exact ⟨h1, by rw [h1]⟩

/-- C3 amended witness: a concrete failed call leaves the filesystem, and
with it the persisted log, unchanged. -/
theorem ask_failure_persists_nothing_witness :
    (AiService.askQuestion ⟨[("uploads/t/chat.json", .chat [⟨"user", "old", none⟩])], ["uploads/t"]⟩
        "t" "next" (.errResponse (some "down") 500)).1
      = ⟨[("uploads/t/chat.json", .chat [⟨"user", "old", none⟩])], ["uploads/t"]⟩ := by
  exact (ask_failure_persists_nothing
    ⟨[("uploads/t/chat.json", .chat [⟨"user", "old", none⟩])], ["uploads/t"]⟩
    "t" "next" (.errResponse (some "down") 500) rfl).1

theorem chatLog_writeFile (fs : FS) (sid : String) (L : List ChatMessage) :
    chatLog (fs.writeFile (chatFileOf sid) (.chat L)) sid = L := by
  unfold chatLog readChat
  rw [fileAt_writeFile_self]

/-- C6: on a successful ask, exactly two turns are appended to the loaded
log — first the user turn with the question, then the assistant turn
whose content is the extracted answer (the response itself when it is a
plain string, its `answer` field otherwise) with the optional citation
list (empty when absent) — the full updated log is persisted as
`chat.json` and returned; a session with no prior log ends with exactly
two turns. -/
theorem ask_success_two_turns (fs : FS) (sid q : String) (o : AskRemoteOutcome)
    (hsid : sid ≠ "") (hq : q ≠ "")
    (hroot : fs.existsAt (sessionFolderOf sid) = true)
    (hok : o.isSuccess = true) :
    AiService.askQuestion fs sid q o
      = (fs.writeFile (chatFileOf sid)
           (.chat (chatLog fs sid
              ++ [⟨"user", q, none⟩, ⟨"assistant", o.answerOf, some o.sourcesOf⟩])),
         .ok (chatLog fs sid
              ++ [⟨"user", q, none⟩, ⟨"assistant", o.answerOf, some o.sourcesOf⟩]))
  ∧ (chatLog fs sid = [] →
      chatLog ((AiService.askQuestion fs sid q o).1) sid
        = [⟨"user", q, none⟩, ⟨"assistant", o.answerOf, some o.sourcesOf⟩]
      ∧ (chatLog ((AiService.askQuestion fs sid q o).1) sid).length = 2) := by
  have hneg : ¬(sid = "" ∨ q = "") := by simp [hsid, hq]
  have h1 : AiService.askQuestion fs sid q o
      = (fs.writeFile (chatFileOf sid)
           (.chat (chatLog fs sid
              ++ [⟨"user", q, none⟩, ⟨"assistant", o.answerOf, some o.sourcesOf⟩])),
         .ok (chatLog fs sid
              ++ [⟨"user", q, none⟩, ⟨"assistant", o.answerOf, some o.sourcesOf⟩])) := by
    unfold AiService.askQuestion
    rw [if_neg hneg, if_neg (by simp [hroot])]
    cases o with
    | okString s => simp [chatLog]
    | okJson a srcs => simp [chatLog]
    | errResponse d st => simp [AskRemoteOutcome.isSuccess] at hok
    | errNetwork => simp [AskRemoteOutcome.isSuccess] at hok
  have h2 : chatLog ((AiService.askQuestion fs sid q o).1) sid
      = chatLog fs sid
          ++ [⟨"user", q, none⟩, ⟨"assistant", o.answerOf, some o.sourcesOf⟩] := by
    rw [h1]
    exact chatLog_writeFile _ _ _
  refine ⟨h1, fun hempty => ⟨?_, ?_⟩⟩
  · rw [h2, hempty]
    rfl
  · rw [h2, hempty]
    rfl

/-- C6 witness: an ask on a session with an existing folder and no prior
log yields exactly the two turns, persisted and returned. -/
theorem ask_success_two_turns_witness :
    AiService.askQuestion ⟨[], ["uploads/s"]⟩ "s" "what is this about?"
        (.okJson "an overview" (some [⟨"doc.pdf", 2⟩]))
      = (FS.mk [(chatFileOf "s",
            .chat [⟨"user", "what is this about?", none⟩,
                   ⟨"assistant", "an overview", some [⟨"doc.pdf", 2⟩]⟩])] ["uploads/s"],
         .ok [⟨"user", "what is this about?", none⟩,
              ⟨"assistant", "an overview", some [⟨"doc.pdf", 2⟩]⟩])
  ∧ (chatLog ((AiService.askQuestion ⟨[], ["uploads/s"]⟩ "s" "what is this about?"
        (.okJson "an overview" (some [⟨"doc.pdf", 2⟩]))).1) "s").length = 2 := by
  have h := ask_success_two_turns ⟨[], ["uploads/s"]⟩ "s" "what is this about?"
    (.okJson "an overview" (some [⟨"doc.pdf", 2⟩])) (by decide) (by decide)
    (by decide) rfl
  exact ⟨h.1.trans rfl, (h.2 rfl).2⟩

/-- C9: an ask against a session identifier whose storage root does not
exist fails with the 404 session-not-found error instead of returning an
empty conversation, and the filesystem is returned unchanged — no
artifact is written for that identifier. -/
theorem ask_missing_root (fs : FS) (sid q : String) (o : AskRemoteOutcome)
    (hsid : sid ≠ "") (hq : q ≠ "")
    (hroot : fs.existsAt (sessionFolderOf sid) = false) :
    AiService.askQuestion fs sid q o = (fs, .error ⟨"Session Folder Not Found", 404⟩) := by
  unfold AiService.askQuestion
  rw [if_neg (by simp [hsid, hq]), if_pos hroot]

/-- C9 witness: an ask on an identifier that was never created fails with
the session-not-found error and leaves the empty filesystem empty. -/
theorem ask_missing_root_witness :
    AiService.askQuestion ⟨[], []⟩ "nosuch" "anything?" .errNetwork
      = (⟨[], []⟩, .error ⟨"Session Folder Not Found", 404⟩) := by
  exact ask_missing_root ⟨[], []⟩ "nosuch" "anything?" .errNetwork
    (by decide) (by decide) (by decide)

theorem ask_log_grows (fs : FS) (sid q : String) (o : AskRemoteOutcome) :
    ∃ t, chatLog fs sid ++ t = chatLog ((AiService.askQuestion fs sid q o).1) sid := by
  unfold AiService.askQuestion
  split
  · exact ⟨[], by simp⟩
  · split
    · exact ⟨[], by simp⟩
    · cases o with
      | errResponse d st => exact ⟨[], by simp⟩
      | errNetwork => exact ⟨[], by simp⟩
      | okString s =>
          refine ⟨[⟨"user", q, none⟩,
            ⟨"assistant", (AskRemoteOutcome.okString s).answerOf,
              some (AskRemoteOutcome.okString s).sourcesOf⟩], ?_⟩
          rw [chatLog_writeFile]
          simp [chatLog]
      | okJson a srcs =>
          refine ⟨[⟨"user", q, none⟩,
            ⟨"assistant", (AskRemoteOutcome.okJson a srcs).answerOf,
              some (AskRemoteOutcome.okJson a srcs).sourcesOf⟩], ?_⟩
          rw [chatLog_writeFile]
          simp [chatLog]

/-- C8: across any sequence of ask calls on the same session, the
persisted conversation log is monotonically append-only — the log before
the sequence is an unchanged prefix of the log after it (so every
previously persisted turn is preserved at its original position, never
reordered or deleted), and its length only grows. -/
theorem chat_append_only (calls : List (String × AskRemoteOutcome))
    (fs : FS) (sid : String) :
    (∃ t, chatLog fs sid ++ t = chatLog (runAsks fs sid calls) sid)
  ∧ (chatLog fs sid).length ≤ (chatLog (runAsks fs sid calls) sid).length := by
  induction calls generalizing fs with
  | nil => exact ⟨⟨[], List.append_nil _⟩, le_refl _⟩
  | cons c rest ih =>
      obtain ⟨q, o⟩ := c
      obtain ⟨t1, ht1⟩ := ask_log_grows fs sid q o
      obtain ⟨⟨t2, ht2⟩, hlen⟩ := ih ((AiService.askQuestion fs sid q o).1)
      have hrun : runAsks fs sid ((q, o) :: rest)
          = runAsks ((AiService.askQuestion fs sid q o).1) sid rest := rfl
      refine ⟨⟨t1 ++ t2, ?_⟩, ?_⟩
      · rw [hrun, ← ht2, ← ht1, List.append_assoc]
      · have l1 : (chatLog fs sid).length
            ≤ (chatLog ((AiService.askQuestion fs sid q o).1) sid).length := by
          rw [← ht1, List.length_append]
          omega
        rw [hrun]
        exact le_trans l1 hlen

theorem upload_success_sid (fs : FS) (sid : String) (f : Option String)
    (proc : ScanProcessOutcome) (sumo : SummarizeRemoteOutcome)
    (st sid2 : String) (rep : FileContent) (sum : String)
    (h : (UploadService.upload fs sid f proc sumo).2 = .success st sid2 rep sum) :
    sid2 = sid := by
  cases f with
  | none => simp [UploadService.upload] at h
  | some fp =>
      by_cases hg : sid = "" ∨ fp = ""
      · simp [UploadService.upload, hg] at h
      · rcases hsc : CyberService.scan fs sid fp proc with ⟨fs1, r⟩
        cases r with
        | error e => simp [UploadService.upload, hg, hsc] at h
        | ok rep2 =>
            by_cases hr : riskLevelEq3 rep2 = true
            · simp [UploadService.upload, hg, hsc, hr] at h
            · rcases hsm : AiService.summarize fs1 sid fp sumo with ⟨fs2, r2⟩
              cases r2 with
              | error e2 => simp [UploadService.upload, hg, hsc, hr, hsm] at h
              | ok s =>
                  simp [UploadService.upload, hg, hsc, hr, hsm] at h
                  exact h.2.1.symm

/-- C10: the session identifier used by the intake route is the fresh
`uuid4()` value the `generateSessionId` middleware assigns before Multer
stores the file — intake is independent of any caller-supplied session
identifier, the stored file lives under `uploads/<fresh uuid>`, the
pipeline runs on that path, and any success response returns exactly the
fresh identifier, so an upload always creates a new session and can never
target an existing one. -/
theorem intake_fresh_session (fs : FS) (c1 c2 : Option String)
    (f : Option (String × String)) (uuid : String)
    (proc : ScanProcessOutcome) (sumo : SummarizeRemoteOutcome) :
    intake fs ⟨c1, f⟩ uuid proc sumo = intake fs ⟨c2, f⟩ uuid proc sumo
  ∧ (∀ st sid rep sum,
      (intake fs ⟨c1, f⟩ uuid proc sumo).2 = .success st sid rep sum → sid = uuid)
  ∧ (∀ nm ct, f = some (nm, ct) → uuid ≠ "" →
      (multerStore fs uuid nm ct).fileAt (Path.join (sessionFolderOf uuid) nm)
        = some (.text ct)
      ∧ intake fs ⟨c1, f⟩ uuid proc sumo
          = UploadService.upload (multerStore fs uuid nm ct) uuid
              (some (Path.join (sessionFolderOf uuid) nm)) proc sumo) := by
  refine ⟨rfl, ?_, ?_⟩
  · intro st sid rep sum h
    cases f with
    | none => simp [intake, UploadService.upload] at h
    | some p =>
        obtain ⟨nm, ct⟩ := p
        by_cases hu : uuid = ""
        · simp [intake, hu] at h
        · have heq : intake fs ⟨c1, some (nm, ct)⟩ uuid proc sumo
              = UploadService.upload (multerStore fs uuid nm ct) uuid
                  (some (Path.join (sessionFolderOf uuid) nm)) proc sumo := by
            simp [intake, hu]
          rw [heq] at h
          exact upload_success_sid _ _ _ _ _ _ _ _ _ h
  · intro nm ct hf hu
    subst hf
    refine ⟨fileAt_writeFile_self _ _ _, by simp [intake, hu]⟩

/-- C10 witness: with a caller-supplied identifier present on the
request, intake behaves identically to a request without one, the file is
stored under the fresh uuid, and the success response carries the fresh
uuid. -/
theorem intake_fresh_session_witness :
    intake ⟨[("uploads/u/doc.pdf.report.json", .report ⟨1, "clean"⟩)], []⟩
        ⟨some "attacker-chosen", some ("doc.pdf", "PDF")⟩ "u" .exitZero (.ok "sum")
      = intake ⟨[("uploads/u/doc.pdf.report.json", .report ⟨1, "clean"⟩)], []⟩
          ⟨none, some ("doc.pdf", "PDF")⟩ "u" .exitZero (.ok "sum")
  ∧ (multerStore ⟨[("uploads/u/doc.pdf.report.json", .report ⟨1, "clean"⟩)], []⟩
        "u" "doc.pdf" "PDF").fileAt (Path.join (sessionFolderOf "u") "doc.pdf")
      = some (.text "PDF")
  ∧ (intake ⟨[("uploads/u/doc.pdf.report.json", .report ⟨1, "clean"⟩)], []⟩
        ⟨some "attacker-chosen", some ("doc.pdf", "PDF")⟩ "u" .exitZero (.ok "sum")).2
      = .success "success" "u" (.report ⟨1, "clean"⟩) "sum" := by
  have h := intake_fresh_session
    ⟨[("uploads/u/doc.pdf.report.json", .report ⟨1, "clean"⟩)], []⟩
    (some "attacker-chosen") none (some ("doc.pdf", "PDF")) "u" .exitZero (.ok "sum")
  exact ⟨h.1, (h.2.2 "doc.pdf" "PDF" rfl (by decide)).1, rfl⟩
